import Mathlib

/-!
Shallow embedding of the ISMF Battery Monitor core (the `ismf_battery_monitor`
Python package): the power-monitor loop and its edge-triggered notification
gate (`events.py`, `monitor.py`), the monitor lifecycle state machine
(`monitor.py`), the error taxonomy (`errors.py`), and the generic event
registry (`gui/event/event.py`, `gui/event/collection.py`).

Python machine-level values are modelled by `PyVal`, raised exceptions by
`PyErr`; fallible code returns `Except PyErr _` or pairs the mutated state
with `Option PyErr`. Strings keep Python case semantics through `pyLower`
and `pyUpper` (per-character ASCII case mapping, as `str.lower`/`str.upper`
behave on the ASCII keys this program uses).
-/

set_option linter.unusedVariables false

namespace ISMF

/-- A Python value as this program passes them around: `None`, booleans,
integers and strings. -/
inductive PyVal where
  | pnone
  | pbool (b : Bool)
  | pint (n : Int)
  | pstr (s : String)
deriving DecidableEq

/-- The exceptions this program can raise. `typeError`, `valueError` and
`attributeError` are Python built-ins; `runtimeError` keeps its message so
distinct `RuntimeError` raises stay distinguishable; the rest embed the
taxonomy of the repository itself (`errors.py`, `gui/event/errors.py`). `userExc`
stands for an arbitrary exception raised by a user callback. -/
inductive PyErr where
  | typeError
  | valueError
  | attributeError
  | runtimeError (msg : String)
  | powerMonitorNotRunning
  | batteryStateUnknown
  | eventExists
  | eventLookup
  | userExc (code : Nat)
deriving DecidableEq

/-- Membership in the `PowerMonitorError` taxonomy of `errors.py`: its only
subclasses are `PowerMonitorNotRunningError` and `BatteryStateUnknownError`.
A plain `RuntimeError` or built-in error is not a taxonomy member. -/
def PyErr.isPowerMonitorError : PyErr → Bool
  | .powerMonitorNotRunning => true
  | .batteryStateUnknown => true
  | _ => false

/-- Python truthiness of a `PyVal` (`bool(v)`). -/
def PyVal.truthy : PyVal → Bool
  | .pnone => false
  | .pbool b => b
  | .pint n => n ≠ 0
  | .pstr s => s ≠ ""

/-- `isinstance(v, bool)`. -/
def PyVal.isBool : PyVal → Bool
  | .pbool _ => true
  | _ => false

/-- The boolean payload of a `PyVal` known to be a `bool`. -/
def PyVal.asBool : PyVal → Bool
  | .pbool b => b
  | _ => false

/-- Python `str.lower()` (ASCII case mapping, which covers every key and
event name this program uses). -/
def pyLower (s : String) : String := ⟨s.data.map Char.toLower⟩

/-- Python `str.upper()` (ASCII case mapping). -/
def pyUpper (s : String) : String := ⟨s.data.map Char.toUpper⟩

/-- Python `str.strip()`: drop whitespace from both ends. -/
def pyStrip (s : String) : String :=
  ⟨((s.data.dropWhile Char.isWhitespace).reverse.dropWhile Char.isWhitespace).reverse⟩

/-! ## The notification gate (`events.py`) and `PowerMonitor.notify`

`handle_event(event, power_monitor)` converts the event string to a boolean
and dispatches to `__handle_device_plugged_in` / `__handle_device_unplugged`.
The handlers read the `last_state` of the monitor (`None` before the first
completed check, else the last handled sample), the controller
`is_animating` flag and the live plugged status (equal to the sampled event
in the loop that calls `handle_event`), call `PowerMonitor.notify`, issue
display commands and write `_last_state`. The externally visible display
and audio commands a single routing step issues are recorded as a list of
`StepAction`s, in issue order. -/

/-- The observable actions a routing step can issue: playing the plugged /
unplugged notification sound (`Sound.notify` via `PowerMonitor.notify`),
clearing the display (`controller.clear()`), and rendering the battery
percentage (`controller.draw_percentage(...)`). -/
inductive StepAction where
  | soundPlugged
  | soundUnplugged
  | clearDisplay
  | drawPercentage
deriving DecidableEq

/-- `PowerMonitor.notify(which)`: returns immediately when `last_state` is
`None` (first check not completed); otherwise plays the plugged sound only
if `which == "plugged"` and `last_state` is falsy, and the unplugged sound
only if `which == "unplugged"` and `last_state` is truthy. -/
def PowerMonitor.notify (last_state : Option Bool) (which : String) : List StepAction :=
  match last_state with
  | none => []
  | some ls =>
    if pyLower which = "plugged" then
      if ls = false then [.soundPlugged] else []
    else if pyLower which = "unplugged" then
      if ls = true then [.soundUnplugged] else []
    else []

/-- `events.__handle_device_plugged_in(pm)`: when the live plugged status is
true (it is, on this branch), the controller is not animating, and
`not pm.last_state or pm.last_state is None` (i.e. `last_state` is not
`True`), it calls `pm.notify("plugged")`, clears the display and writes
`pm._last_state = True`. Returns the new `last_state` and the issued
actions. -/
def handle_device_plugged_in (is_animating : Bool) (last_state : Option Bool) :
    Option Bool × List StepAction :=
  if !is_animating && (last_state ≠ some true : Bool) then
    (some true, PowerMonitor.notify last_state "plugged" ++ [.clearDisplay])
  else
    (last_state, [])

/-- `events.__handle_device_unplugged(pm)`: when the live unplugged status is
true (it is, on this branch), the controller is not animating, and
`pm.last_state or pm.last_state is None` (i.e. `last_state` is not
`False`), it calls `pm.notify("unplugged")`, clears the display and writes
`pm._last_state = False`; then — outside that conditional — it always calls
`pm.controller.draw_percentage(get_battery_percentage())`. -/
def handle_device_unplugged (is_animating : Bool) (last_state : Option Bool) :
    Option Bool × List StepAction :=
  let r :=
    if !is_animating && (last_state ≠ some false : Bool) then
      (some false, PowerMonitor.notify last_state "unplugged" ++ [.clearDisplay])
    else
      (last_state, [])
  (r.1, r.2 ++ [.drawPercentage])

/-- `events.event_to_bool(event)`: lowercases and strips the event string;
`"on"/"true"/"plugged"` mean `True`, `"off"/"false"/"unplugged"` mean
`False`, anything else raises `ValueError`. -/
def event_to_bool (event : String) : Except PyErr Bool :=
  let e := pyStrip (pyLower event)
  if e = "on" ∨ e = "true" ∨ e = "plugged" then .ok true
  else if e = "off" ∨ e = "false" ∨ e = "unplugged" then .ok false
  else .error .valueError

/-- One routing step with the event already converted to a boolean sample:
the branch dispatch at the end of `events.handle_event`. The live
`pm.plugged_in` / `pm.unplugged` reads inside the handlers equal the sampled
event, since `PowerMonitor.run` samples once per iteration and routes that
sample. -/
def routeSample (plugged is_animating : Bool) (last_state : Option Bool) :
    Option Bool × List StepAction :=
  if plugged then handle_device_plugged_in is_animating last_state
  else handle_device_unplugged is_animating last_state

/-- `events.handle_event(event, power_monitor)`: convert the event string
with `event_to_bool` (propagating its `ValueError`), then dispatch. -/
def handle_event (event : String) (is_animating : Bool) (last_state : Option Bool) :
    Except PyErr (Option Bool × List StepAction) :=
  (event_to_bool event).map fun b => routeSample b is_animating last_state

/-- Routing a finite sequence of boolean power samples through the gate with
the display never animating, starting from a given `last_state`: the final
`last_state` and the concatenated action trace. -/
def runSamples : Option Bool → List Bool → Option Bool × List StepAction
  | ls, [] => (ls, [])
  | ls, b :: rest =>
    let step := routeSample b false ls
    let tail := runSamples step.1 rest
    (tail.1, step.2 ++ tail.2)

/-- Whether an action is a notification sound. -/
def isSound : StepAction → Bool
  | .soundPlugged => true
  | .soundUnplugged => true
  | _ => false

/-- The notification sounds of an action trace, in order. -/
def sounds (acts : List StepAction) : List StepAction := acts.filter isSound

/-- The sound for a sample direction. -/
def soundOf (b : Bool) : StepAction :=
  if b then .soundPlugged else .soundUnplugged

/-- Spec-side definition (from the words of the spec): one notification per state
edge of the sample sequence, in edge order — given the previous sample, each
later sample that differs from its predecessor contributes exactly one sound
for its direction, and equal consecutive samples contribute nothing. -/
def specEdgeSounds : Bool → List Bool → List StepAction
  | _, [] => []
  | prev, b :: rest =>
    if b = prev then specEdgeSounds prev rest
    else soundOf b :: specEdgeSounds b rest

/-- Spec-side definition: the notifications of a whole sample sequence — the
first sample only establishes the baseline and never notifies. -/
def specEdgeSoundsFrom : List Bool → List StepAction
  | [] => []
  | b :: rest => specEdgeSounds b rest

/-! ## The monitor loop (`PowerMonitor.run`) and lifecycle (`monitor.py`)

The loop body is

```
while self.running:
    state = "plugged" if self.plugged_in else "unplugged"
    handle_event(state, self)
    if not self.running:
        self.controller.clear()
        break
    self.__cycles += 1
    if self.cycles % 10 == 0:
        log.debug(...)
    sleep(self.battery_check_interval)
```

One iteration is embedded as a function of the state the loop reads
(`running`, `cycles`, `last_state`), the sampled plugged status, the
animating flag of the controller, and whether a concurrent `stop()` flipped
`running` to false while `handle_event` ran. It returns the new state, the
step trace of the iteration in execution order, and whether the loop continues. -/

/-- The loop-visible mutable state of a `PowerMonitor`. -/
structure LoopState where
  running : Bool
  cycles : Nat
  last_state : Option Bool
deriving DecidableEq

/-- The steps of one `PowerMonitor.run` loop iteration, in execution order. -/
inductive LoopAction where
  | samplePower
  | routeEvent
  | clearDisplay
  | incrCycles
  | milestoneLog
  | sleepInterval
deriving DecidableEq

/-- One iteration of the `while self.running` loop of `PowerMonitor.run`.
`stop_during_route` models the one permitted concurrent writer: an external
`stop()` call flipping `running` to false while `handle_event` runs. When the
loop head finds `running` false, no iteration executes. -/
def runIter (st : LoopState) (plugged is_animating stop_during_route : Bool) :
    LoopState × List LoopAction × Bool :=
  if st.running = false then (st, [], false)
  else
    let ls := (routeSample plugged is_animating st.last_state).1
    let running := st.running && !stop_during_route
    if running = false then
      ({ st with running := false, last_state := ls },
       [.samplePower, .routeEvent, .clearDisplay], false)
    else
      let c := st.cycles + 1
      ({ st with last_state := ls, cycles := c },
       [.samplePower, .routeEvent, .incrCycles]
         ++ (if c % 10 = 0 then [.milestoneLog] else []) ++ [.sleepInterval],
       true)

/-- The lifecycle state of a `PowerMonitor` (`monitor.py`): the `_running`
flag, the private start/stop timestamps (`None` until written), the cycle
counter and `_last_state`. Timestamps are integers standing for
`time.time()` readings. -/
structure PowerMonitor where
  running : Bool
  start_time : Option Int
  stop_time : Option Int
  cycles : Nat
  last_state : Option Bool
deriving DecidableEq

/-- A freshly constructed monitor: not running, no timestamps, no completed
check, zero cycles. -/
def PowerMonitor.fresh : PowerMonitor :=
  { running := false, start_time := none, stop_time := none, cycles := 0, last_state := none }

/-- The setter of the `running` property:

```
if not self._running and new:
    raise RuntimeError("Cannot start monitor by setting running to True. ...")
if not isinstance(new, bool):
    raise TypeError(...)
self._running = new
```

The first guard fires on any truthy value while the monitor is stopped; the
type check runs only after it. Returns the (possibly unchanged) state and
the raised exception, if any. -/
def PowerMonitor.set_running (m : PowerMonitor) (new : PyVal) : PowerMonitor × Option PyErr :=
  if !m.running && new.truthy then
    (m, some (.runtimeError "Cannot start monitor by setting running to True. Use the start method instead."))
  else if !new.isBool then
    (m, some .typeError)
  else
    ({ m with running := new.asBool }, none)

/-- `PowerMonitor.start(threaded)` up to entering the loop: raises
`RuntimeError("Monitor is already running")` if already running; otherwise
sets `_running = True` and records `start_time`. The blocking `run()` loop
it then enters is modelled separately by `runIter`; thread spawning and the
exit-hook registration are external effects. -/
def PowerMonitor.start (m : PowerMonitor) (now : Int) : PowerMonitor × Option PyErr :=
  if m.running then (m, some (.runtimeError "Monitor is already running"))
  else ({ m with running := true, start_time := some now }, none)

/-- `PowerMonitor.stop(without_salutation, reason)`: raises
`PowerMonitorNotRunningError` — before touching any state — if not running;
otherwise records `stop_time` and sets `running` to false through the
`running` setter (which permits `False`). The goodbye animation and final
display clear are external display effects. -/
def PowerMonitor.stop (m : PowerMonitor) (now : Int) : PowerMonitor × Option PyErr :=
  if !m.running then (m, some .powerMonitorNotRunning)
  else ({ m with stop_time := some now, running := false }, none)

/-- The `run_time` property:

```
if not hasattr(self, "start_time"):
    raise PowerMonitorNotRunningError(...)
recent = self.stop_time if hasattr(self, "stop_time") else time.time()
return recent - self.start_time
```

`start_time` and `stop_time` are class-level properties whose getters return
`None` rather than raising, so both `hasattr` calls are always `True`: the
`PowerMonitorNotRunningError` branch and the `time.time()` fallback are
unreachable. `recent` is therefore always `self.stop_time`, and the
subtraction raises `TypeError` (unsupported operand types for `-`) whenever
`stop_time` or `start_time` is still `None`. `now` is the current clock
reading the dead `time.time()` branch would have used. -/
def PowerMonitor.run_time (m : PowerMonitor) (now : Int) : Except PyErr Int :=
  match m.stop_time, m.start_time with
  | some recent, some started => .ok (recent - started)
  | _, _ => .error .typeError

/-! ## The generic event registry (`gui/event/event.py`, `gui/event/collection.py`)

An `Event` holds a key (`None` only on the sentinel `ExitEvent`), an optional
callback and the two usage counters. A callback is a function from its
positional arguments to a normal result or a raised exception; keyword
arguments play no role in the registry logic and are folded into the
argument list. An `EventCollection` is its ordered `__events` list. -/

/-- The state of an `Event` instance. `isExit` records
`isinstance(_, ExitEvent)`. -/
structure Event where
  key : Option String
  isExit : Bool
  callback : Option (List PyVal → Except PyErr PyVal)
  timesHandled : Nat
  timesFailed : Nat

/-- `Event.__init__(key, window, callback=None, element_arg_map=None)` with
the required `window` argument supplied (its value does not enter the
registry logic). For a plain `Event` the key setter rejects `None` with
`TypeError` (the `None` branch is reserved for `ExitEvent`), and otherwise
stores `new.upper()`; a supplied callback is a function, hence callable, so
the callback setter accepts it. Counters start at zero. -/
def Event.init (key : Option String) (callback : Option (List PyVal → Except PyErr PyVal)) :
    Except PyErr Event :=
  match key with
  | none => .error .typeError
  | some k =>
    .ok { key := some (pyUpper k), isExit := false, callback := callback
          timesHandled := 0, timesFailed := 0 }

/-- `ExitEvent.__init__` calls `Event.__init__(key=None,)` without the
required positional `window` argument, so constructing an `ExitEvent` raises
`TypeError` before any field is set. (Even with a `window` supplied,
`self.key = key` would dispatch to the overriding key setter of `ExitEvent`,
which unconditionally raises `ValueError`.) -/
def ExitEvent.init : Except PyErr Event := .error .typeError

/-- `Event.handle(callback_args, callback_kwargs)`: increments
`times_handled`, then — if a callback is set — invokes it: a normal result
is returned; a raised exception increments `times_failed` and is re-raised
unchanged (`raise e from e`). With no callback it returns `None`. The
result pairs the mutated event with the outcome. -/
def Event.handle (e : Event) (callback_args : List PyVal) : Event × Except PyErr PyVal :=
  let e1 := { e with timesHandled := e.timesHandled + 1 }
  match e.callback with
  | some f =>
    match f callback_args with
    | .ok v => (e1, .ok v)
    | .error ex => ({ e1 with timesFailed := e1.timesFailed + 1 }, .error ex)
  | none => (e1, .ok .pnone)

/-- `EventCollection.event_names`: the stored keys, in order. -/
def EventCollection.event_names (events : List Event) : List (Option String) :=
  events.map (·.key)

/-- `EventCollection.exit_event_exists`: whether any stored event is an
`ExitEvent`. -/
def EventCollection.exit_event_exists (events : List Event) : Bool :=
  events.any (·.isExit)

/-- `EventCollection.times_handled`: the per-event counters summed. -/
def EventCollection.times_handled (events : List Event) : Nat :=
  (events.map (·.timesHandled)).sum

/-- `EventCollection.times_failed`: the per-event counters summed. -/
def EventCollection.times_failed (events : List Event) : Nat :=
  (events.map (·.timesFailed)).sum

/-- `EventCollection.add_event(event)`: the argument here is already an
`Event` (the `isinstance` check passes); raises `EventExistsError` when its
key is among `event_names`, else appends it. -/
def EventCollection.add_event (events : List Event) (e : Event) : Except PyErr (List Event) :=
  if (EventCollection.event_names events).contains e.key then .error .eventExists
  else .ok (events ++ [e])

/-- `EventCollection.create_event(key, callback)`:

```
if key is None and self.exit_event_exists:
    raise EventExistsError(event_name="ExitEvent")
elif key is None and not self.exit_event_exists:
    return self.add_event(ExitEvent())
key = key.upper()
if key in self.event_names:
    raise EventExistsError(event_name=key)
return self.add_event(Event(key=key, callback=callback))
```

Both constructor calls omit the required positional `window` parameter of
`Event.__init__(self, key, window, callback=None, element_arg_map=None)`,
so each constructing branch raises `TypeError` (the constructor argument is
evaluated before `add_event` is entered); only the duplicate-key branches
reach their `EventExistsError`. -/
def EventCollection.create_event (events : List Event) (key : Option String)
    (callback : Option (List PyVal → Except PyErr PyVal)) : Except PyErr (List Event) :=
  match key with
  | none =>
    if EventCollection.exit_event_exists events then .error .eventExists
    else .error .typeError
  | some k =>
    let ku := pyUpper k
    if (EventCollection.event_names events).contains (some ku) then .error .eventExists
    else .error .typeError

/-- The generator search inside `EventCollection.lookup`:
`next((e for e in self.__events if e.key.lower() == event_key.lower()), None)`.
Events are tested in order; an event whose key is `None` raises
`AttributeError` (`None.lower()`) when reached before a match. -/
def lookupFind : List Event → String → Except PyErr (Option Event)
  | [], _ => .ok none
  | e :: rest, s =>
    match e.key with
    | none => .error .attributeError
    | some k => if pyLower k = pyLower s then .ok (some e) else lookupFind rest s

/-- `EventCollection.lookup(event_key)`: raises `TypeError` when the
argument is not a string; otherwise runs the case-insensitive first-match
search, returning `None` on a miss. -/
def EventCollection.lookup (events : List Event) (event_key : PyVal) :
    Except PyErr (Option Event) :=
  match event_key with
  | .pstr s => lookupFind events s
  | _ => .error .typeError

/-- `EventCollection.handle_event(event, ...)` once `lookup` found a match:
the matched event is handled in place (the stored object mutates), and the
outcome of the callback — including a re-raised exception — is the outcome
of the collection call. A miss raises `EventLookupError`; a `None`-keyed event hit
first propagates the `AttributeError` of the lookup. -/
def handleEventAux : List Event → String → List PyVal → List Event × Except PyErr PyVal
  | [], _, _ => ([], .error .eventLookup)
  | e :: rest, s, args =>
    match e.key with
    | none => (e :: rest, .error .attributeError)
    | some k =>
      if pyLower k = pyLower s then
        let r := Event.handle e args
        (r.1 :: rest, r.2)
      else
        let r := handleEventAux rest s args
        (e :: r.1, r.2)

/-- `EventCollection.handle_event(event, callback_args, callback_kwargs)`:
`self.lookup(event)` first — a non-string argument raises its `TypeError` —
then dispatch to the found event, or `EventLookupError` on a miss. -/
def EventCollection.handle_event (events : List Event) (event : PyVal) (args : List PyVal) :
    List Event × Except PyErr PyVal :=
  match event with
  | .pstr s => handleEventAux events s args
  | _ => (events, .error .typeError)


/-! ## Helper lemmas -/

/-- Filtering for sounds distributes over trace concatenation. -/
theorem sounds_append (xs ys : List StepAction) : sounds (xs ++ ys) = sounds xs ++ sounds ys := by
  simp [sounds]

/-- After a routing step on sample `b` from an established state, the
established state is `b` (whether or not an edge fired). -/
theorem routeSample_state_some (b prev : Bool) : (routeSample b false (some prev)).1 = some b := by
  cases b <;> cases prev <;> decide

/-- A routing step from established state `prev` on sample `b` plays exactly
the edge sound: nothing when `b = prev`, the sound of `b` otherwise. -/
theorem sounds_routeSample_some (b prev : Bool) :
    sounds (routeSample b false (some prev)).2 = if b = prev then [] else [soundOf b] := by
  cases b <;> cases prev <;> decide

/-- The first routed sample establishes the baseline state. -/
theorem routeSample_state_none (b : Bool) : (routeSample b false none).1 = some b := by
  cases b <;> decide

/-- The first routed sample plays no sound: `PowerMonitor.notify` returns
early while `last_state` is `None`. -/
theorem sounds_routeSample_none (b : Bool) : sounds (routeSample b false none).2 = [] := by
  cases b <;> decide

/-- From any established state, the sounds of a routed sample sequence are
exactly the edge sounds. -/
theorem sounds_runSamples_some (l : List Bool) :
    ∀ prev, sounds (runSamples (some prev) l).2 = specEdgeSounds prev l := by
  induction l with
  | nil => intro prev; rfl
  | cons b rest ih =>
    intro prev
    show sounds ((routeSample b false (some prev)).2
        ++ (runSamples (routeSample b false (some prev)).1 rest).2)
      = specEdgeSounds prev (b :: rest)
    rw [sounds_append, routeSample_state_some, sounds_routeSample_some]
    by_cases h : b = prev
    · subst h
      simpa [specEdgeSounds] using ih b
    · simpa [specEdgeSounds, h] using ih b

/-- The cons law of the summed `times_handled` counters. -/
theorem times_handled_cons (e : Event) (rest : List Event) :
    EventCollection.times_handled (e :: rest)
      = e.timesHandled + EventCollection.times_handled rest := by
  simp [EventCollection.times_handled]

/-- The cons law of the summed `times_failed` counters. -/
theorem times_failed_cons (e : Event) (rest : List Event) :
    EventCollection.times_failed (e :: rest)
      = e.timesFailed + EventCollection.times_failed rest := by
  simp [EventCollection.times_failed]

/-- On a collection whose stored keys are all strings, the lookup search
never raises: it returns some result, and returns `None` exactly when no
stored key matches case-insensitively. -/
theorem lookupFind_string_total (c : List Event) (s : String)
    (hkeys : ∀ e ∈ c, e.key ≠ none) :
    (∃ r, lookupFind c s = .ok r) ∧
    ((∀ e ∈ c, ∀ k, e.key = some k → pyLower k ≠ pyLower s) → lookupFind c s = .ok none) := by
  induction c with
  | nil => exact ⟨⟨none, rfl⟩, fun _ => rfl⟩
  | cons e0 rest ih =>
    have hk0 : e0.key ≠ none := hkeys e0 (by simp)
    cases hke : e0.key with
    | none => exact absurd hke hk0
    | some k =>
      by_cases hm : pyLower k = pyLower s
      · refine ⟨⟨some e0, by simp [lookupFind, hke, hm]⟩, fun hnone => ?_⟩
        exact absurd hm (hnone e0 (by simp) k hke)
      · have ih2 := ih (fun e he => hkeys e (by simp [he]))
        refine ⟨?_, fun hnone => ?_⟩
        · obtain ⟨r, hr⟩ := ih2.1
          exact ⟨r, by simp only [lookupFind, hke, if_neg hm]; exact hr⟩
        · have := ih2.2 (fun e he k2 hk2 => hnone e (by simp [he]) k2 hk2)
          simp only [lookupFind, hke, if_neg hm]
          exact this

/-! ## The claims -/

/-- C1: routing any finite sequence of power samples through `handle_event`
with the display never animating plays the notification sounds exactly at
the state edges, in edge order — hence at most one sound per direction per
maximal run of same-valued samples — and the very first sample never plays
a sound (it only establishes the `last_state` baseline). In particular the
sample sequence `[unplugged, unplugged, plugged, plugged, plugged,
unplugged]` yields exactly the notifications `[plugged, unplugged]` in that
order. -/
theorem claim_notifications_edge_triggered :
    (∀ samples : List Bool, sounds (runSamples none samples).2 = specEdgeSoundsFrom samples) ∧
    sounds (runSamples none [false, false, true, true, true, false]).2
      = [StepAction.soundPlugged, StepAction.soundUnplugged] := by
  constructor
  · intro samples
    cases samples with
    | nil => rfl
    | cons b rest =>
      show sounds ((routeSample b false none).2
          ++ (runSamples (routeSample b false none).1 rest).2)
        = specEdgeSoundsFrom (b :: rest)
      rw [sounds_append, sounds_routeSample_none, routeSample_state_none]
      simpa [specEdgeSoundsFrom] using sounds_runSamples_some rest b
  · decide

/-- C2 (amended): in every executed iteration of the `PowerMonitor.run`
loop the order is: sample, route, then immediately check `running`; if a
concurrent `stop()` flipped `running` to false during routing, the display
is cleared and the loop exits without incrementing the cycle counter and
without sleeping; otherwise the counter is incremented, a milestone is
logged when the new count is a multiple of 10, and the loop sleeps and
continues. -/
theorem claim_run_loop_order (st : LoopState) (plugged is_animating stop_req : Bool)
    (h : st.running = true) :
    (stop_req = true →
      runIter st plugged is_animating stop_req =
        ({ st with
             running := false,
             last_state := (routeSample plugged is_animating st.last_state).1 },
         [.samplePower, .routeEvent, .clearDisplay], false)) ∧
    (stop_req = false →
      runIter st plugged is_animating stop_req =
        ({ st with
             cycles := st.cycles + 1,
             last_state := (routeSample plugged is_animating st.last_state).1 },
         [.samplePower, .routeEvent, .incrCycles]
           ++ (if (st.cycles + 1) % 10 = 0 then [.milestoneLog] else []) ++ [.sleepInterval],
         true)) := by
  constructor <;> intro hs <;> subst hs <;> simp [runIter, h]

/-- C2 witness: a continuing iteration at cycle 9 increments to 10, logs the
milestone and sleeps. -/
theorem claim_run_loop_order_witness :
    runIter { running := true, cycles := 9, last_state := none } true false false =
      ({ running := true, cycles := 10, last_state := some true },
       [.samplePower, .routeEvent, .incrCycles, .milestoneLog, .sleepInterval], true) := by
  have h := (claim_run_loop_order { running := true, cycles := 9, last_state := none }
    true false false rfl).2 rfl
  exact h

/-- C2 counterexample: on an iteration in which routing set `running` to
false, the cycle counter is NOT incremented — the loop clears the display
and exits right after the routing step, before the increment — contrary to
the claim that the counter is incremented before the loop exits. -/
theorem claim_run_loop_order_cex :
    (runIter { running := true, cycles := 0, last_state := none } false false true).1.cycles = 0 ∧
    LoopAction.incrCycles ∉
      (runIter { running := true, cycles := 0, last_state := none } false false true).2.1 ∧
    (runIter { running := true, cycles := 0, last_state := none } false false true).2.1
      = [.samplePower, .routeEvent, .clearDisplay] := by
  decide

/-- C3 (amended): the battery-percentage render is never issued on the
plugged branch, and on the unplugged branch it is issued exactly once on
every invocation — as the final action of the step, after the notification,
clear and `last_state` write when those occur — regardless of the animating
flag and of whether `last_state` already equals Unplugged. -/
theorem claim_draw_asymmetry (is_animating : Bool) (last_state : Option Bool) :
    (routeSample true is_animating last_state).2.count StepAction.drawPercentage = 0 ∧
    (routeSample false is_animating last_state).2.count StepAction.drawPercentage = 1 ∧
    (routeSample false is_animating last_state).2.getLast? = some StepAction.drawPercentage := by
  cases is_animating <;> rcases last_state with _ | (_ | _) <;> decide

/-- C3 counterexample: with `last_state` already Unplugged (no edge, display
idle) the unplugged branch still renders the percentage, and it also renders
while the display is animating — the render is not confined to the guarded
edge case, because `draw_percentage` is called outside the conditional in
`__handle_device_unplugged`. -/
theorem claim_draw_asymmetry_cex :
    (routeSample false false (some false)).2 = [StepAction.drawPercentage] ∧
    (routeSample false true (some true)).2 = [StepAction.drawPercentage] := by
  decide

/-- C4 (code bug): `run_time` evaluated at the failing inputs. Reading
`run_time` on a never-started monitor raises `TypeError`, not
`PowerMonitorNotRunningError`, because `hasattr(self, "start_time")` is
always true for a class-level property; a started-but-not-stopped monitor
also raises `TypeError`, because `recent` always takes `stop_time` (still
`None`) — the `now - start_time` branch is unreachable; only after
`start()` then `stop()` does it return `stop_time - start_time` as the
claim and the docstring of `run_time` describe. -/
theorem claim_run_time_bug :
    PowerMonitor.run_time PowerMonitor.fresh 50 = .error .typeError ∧
    (PowerMonitor.start PowerMonitor.fresh 100).2 = none ∧
    PowerMonitor.run_time (PowerMonitor.start PowerMonitor.fresh 100).1 105 = .error .typeError ∧
    PowerMonitor.run_time (PowerMonitor.stop (PowerMonitor.start PowerMonitor.fresh 100).1 107).1 200
      = .ok 7 :=
  ⟨rfl, rfl, rfl, rfl⟩

/-- C5 (amended): `stop()` on a non-running monitor always fails with
`PowerMonitorNotRunningError` — a `PowerMonitorError` taxonomy member — and
leaves the state unchanged; `start()` on an already-running monitor always
fails, but with a plain `RuntimeError("Monitor is already running")`: no
`AlreadyRunningError` taxonomy member exists in `errors.py`. -/
theorem claim_start_stop_guards (m : PowerMonitor) (now : Int) :
    (m.running = false →
      m.stop now = (m, some PyErr.powerMonitorNotRunning) ∧
      PyErr.powerMonitorNotRunning.isPowerMonitorError = true) ∧
    (m.running = true →
      m.start now = (m, some (PyErr.runtimeError "Monitor is already running"))) := by
  constructor <;> intro h <;>
    simp [PowerMonitor.stop, PowerMonitor.start, h, PyErr.isPowerMonitorError]

/-- C5 witness: the guards at concrete monitors. -/
theorem claim_start_stop_guards_witness :
    PowerMonitor.stop PowerMonitor.fresh 3 = (PowerMonitor.fresh, some PyErr.powerMonitorNotRunning) ∧
    PowerMonitor.start { PowerMonitor.fresh with running := true } 4
      = ({ PowerMonitor.fresh with running := true },
         some (PyErr.runtimeError "Monitor is already running")) := by
  exact ⟨((claim_start_stop_guards PowerMonitor.fresh 3).1 rfl).1,
         (claim_start_stop_guards { PowerMonitor.fresh with running := true } 4).2 rfl⟩

/-- C5 counterexample: the failure `start()` raises on an already-running
monitor is a plain `RuntimeError`, not a member of the `PowerMonitorError`
taxonomy — the claimed `AlreadyRunningError` taxonomy member does not
exist. -/
theorem claim_already_running_cex :
    (PowerMonitor.start { PowerMonitor.fresh with running := true } 5).2
      = some (PyErr.runtimeError "Monitor is already running") ∧
    PyErr.isPowerMonitorError (PyErr.runtimeError "Monitor is already running") = false :=
  ⟨rfl, rfl⟩

/-- C6: handling a found event through `EventCollection.handle_event`
increments the summed `times_handled` counters by exactly 1 whether or not
the callback fails (the increment happens before the invocation); when the
callback raises, the summed `times_failed` counters also grow by exactly 1
and the very same exception is the outcome at the caller of `handle_event`;
when it returns normally, `times_failed` is unchanged and the value is
returned. -/
theorem claim_handle_counts (c : List Event) (s : String) (args : List PyVal)
    (e : Event) (f : List PyVal → Except PyErr PyVal)
    (hfind : lookupFind c s = .ok (some e)) (hcb : e.callback = some f) :
    (∀ ex, f args = .error ex →
      (EventCollection.handle_event c (.pstr s) args).2 = .error ex ∧
      EventCollection.times_handled (EventCollection.handle_event c (.pstr s) args).1
        = EventCollection.times_handled c + 1 ∧
      EventCollection.times_failed (EventCollection.handle_event c (.pstr s) args).1
        = EventCollection.times_failed c + 1) ∧
    (∀ v, f args = .ok v →
      (EventCollection.handle_event c (.pstr s) args).2 = .ok v ∧
      EventCollection.times_handled (EventCollection.handle_event c (.pstr s) args).1
        = EventCollection.times_handled c + 1 ∧
      EventCollection.times_failed (EventCollection.handle_event c (.pstr s) args).1
        = EventCollection.times_failed c) := by
  induction c with
  | nil => simp [lookupFind] at hfind
  | cons e0 rest ih =>
    cases hk : e0.key with
    | none => simp [lookupFind, hk] at hfind
    | some k =>
      by_cases hm : pyLower k = pyLower s
      · have he : e0 = e := by
          have := hfind
          simp [lookupFind, hk, hm] at this
          exact this
        subst he
        constructor
        · intro ex hex
          simp [EventCollection.handle_event, handleEventAux, hk, hm, Event.handle, hcb, hex,
                times_handled_cons, times_failed_cons]
          omega
        · intro v hv
          simp [EventCollection.handle_event, handleEventAux, hk, hm, Event.handle, hcb, hv,
                times_handled_cons, times_failed_cons]
          omega
      · have hfind2 : lookupFind rest s = .ok (some e) := by
          have := hfind
          simpa [lookupFind, hk, hm] using this
        have ihh := ih hfind2
        constructor
        · intro ex hex
          obtain ⟨h1, h2, h3⟩ := ihh.1 ex hex
          refine ⟨?_, ?_, ?_⟩
          · simpa [EventCollection.handle_event, handleEventAux, hk, hm] using h1
          · have := h2
            simp [EventCollection.handle_event, handleEventAux, hk, hm,
                  times_handled_cons] at this ⊢
            omega
          · have := h3
            simp [EventCollection.handle_event, handleEventAux, hk, hm,
                  times_failed_cons] at this ⊢
            omega
        · intro v hv
          obtain ⟨h1, h2, h3⟩ := ihh.2 v hv
          refine ⟨?_, ?_, ?_⟩
          · simpa [EventCollection.handle_event, handleEventAux, hk, hm] using h1
          · have := h2
            simp [EventCollection.handle_event, handleEventAux, hk, hm,
                  times_handled_cons] at this ⊢
            omega
          · have := h3
            simp [EventCollection.handle_event, handleEventAux, hk, hm,
                  times_failed_cons] at this ⊢
            omega

/-- A callback that always raises an arbitrary user exception. -/
def failingCallback : List PyVal → Except PyErr PyVal := fun _ => .error (.userExc 7)

/-- A stored event with key "PING", the failing callback, and nonzero
counters. -/
def pingEvent : Event :=
  { key := some "PING", isExit := false, callback := some failingCallback
    timesHandled := 3, timesFailed := 1 }

/-- C6 witness: dispatching "ping" to the stored "PING" event whose callback
raises `userExc 7` re-raises exactly that exception and moves the counters
from (3, 1) to (4, 2). -/
theorem claim_handle_counts_witness :
    (EventCollection.handle_event [pingEvent] (.pstr "ping") []).2 = .error (.userExc 7) ∧
    EventCollection.times_handled (EventCollection.handle_event [pingEvent] (.pstr "ping") []).1 = 4 ∧
    EventCollection.times_failed (EventCollection.handle_event [pingEvent] (.pstr "ping") []).1 = 2 := by
  have h := (claim_handle_counts [pingEvent] "ping" [] pingEvent failingCallback rfl rfl).1
    (.userExc 7) rfl
  exact h

/-- A callback that returns `None` normally. -/
def someCallback : List PyVal → Except PyErr PyVal := fun _ => .ok .pnone

/-- C7 (code bug): `create_event(None, cb)` on a fresh collection does not
construct the sentinel exit event — it raises `TypeError`, because
`ExitEvent.__init__` calls `Event.__init__(key=None,)` without the required
positional `window` argument; no call of `create_event(None, ...)` can ever
succeed, so no second call can fail with `EventExistsError` either. -/
theorem claim_create_exit_event_raises :
    EventCollection.create_event [] none (some someCallback) = .error .typeError := rfl

/-- C8 (code bug): `create_event("FOO", cb)` on a fresh collection raises
`TypeError` — `Event(key=key, callback=callback)` omits the required
positional `window` argument of `Event.__init__` — so the premise of the
claim (a successful `create_event`) is unreachable; the lookup search
itself is case-insensitive over the upper-cased stored key (see the C10
theorem and `lookupFind`), but no event can be registered through
`create_event`. -/
theorem claim_create_event_foo_raises :
    EventCollection.create_event [] (some "FOO") (some someCallback) = .error .typeError := rfl

/-- C9 (amended): assigning `True` to `running` fails (with `RuntimeError`,
leaving the state unchanged) only while the monitor is not running; on an
already-running monitor the assignment succeeds. Assigning `False` is
always permitted. A non-boolean assignment fails with the same
`RuntimeError` when the monitor is stopped and the value truthy, and with
`TypeError` otherwise — not uniformly with a type error. -/
theorem claim_running_setter (m : PowerMonitor) (v : PyVal) :
    (m.running = false →
      m.set_running (.pbool true)
        = (m, some (.runtimeError "Cannot start monitor by setting running to True. Use the start method instead."))) ∧
    (m.running = true → m.set_running (.pbool true) = ({ m with running := true }, none)) ∧
    (m.set_running (.pbool false) = ({ m with running := false }, none)) ∧
    (v.isBool = false → v.truthy = true → m.running = false →
      m.set_running v
        = (m, some (.runtimeError "Cannot start monitor by setting running to True. Use the start method instead."))) ∧
    (v.isBool = false → (m.running = true ∨ v.truthy = false) →
      m.set_running v = (m, some .typeError)) := by
  refine ⟨?_, ?_, ?_, ?_, ?_⟩
  · intro h
    simp [PowerMonitor.set_running, h, PyVal.truthy]
  · intro h
    simp [PowerMonitor.set_running, h, PyVal.truthy, PyVal.isBool, PyVal.asBool]
  · cases hr : m.running <;>
      simp [PowerMonitor.set_running, hr, PyVal.truthy, PyVal.isBool, PyVal.asBool]
  · intro h1 h2 h3
    simp [PowerMonitor.set_running, h1, h2, h3]
  · intro h1 h2
    rcases h2 with h2 | h2 <;>
      simp [PowerMonitor.set_running, h1, h2]

/-- C9 witness: the setter at concrete states — a running monitor accepts
`True`; a stopped monitor rejects the truthy non-boolean "yes" with the
`RuntimeError`. -/
theorem claim_running_setter_witness :
    (PowerMonitor.set_running { PowerMonitor.fresh with running := true } (.pbool true)
      = ({ PowerMonitor.fresh with running := true }, none)) ∧
    (PowerMonitor.set_running PowerMonitor.fresh (.pstr "yes")
      = (PowerMonitor.fresh,
         some (.runtimeError "Cannot start monitor by setting running to True. Use the start method instead."))) := by
  exact ⟨(claim_running_setter { PowerMonitor.fresh with running := true } PyVal.pnone).2.1 rfl,
         (claim_running_setter PowerMonitor.fresh (.pstr "yes")).2.2.2.1 rfl rfl rfl⟩

/-- C9 counterexample: on an already-running monitor, assigning `True` to
`running` raises nothing (the guard only fires when `_running` is false),
contradicting the claim that it fails in every state; and on a stopped
monitor the truthy non-boolean "yes" raises `RuntimeError`, not the claimed
`TypeError`. -/
theorem claim_running_setter_cex :
    (PowerMonitor.set_running { PowerMonitor.fresh with running := true } (.pbool true)).2 = none ∧
    (PowerMonitor.set_running { PowerMonitor.fresh with running := true } (.pbool true)).1.running
      = true ∧
    PowerMonitor.set_running PowerMonitor.fresh (.pstr "yes")
      = (PowerMonitor.fresh,
         some (PyErr.runtimeError "Cannot start monitor by setting running to True. Use the start method instead.")) :=
  ⟨rfl, rfl, rfl⟩

/-- C10: `EventCollection.lookup` raises `TypeError` on every non-string
argument (including `None`); on a string argument, over a collection whose
stored keys are all strings (the only reachable collections: every
constructible event stores a string key), it never raises — absence of a
match is signalled only by the `None` result. -/
theorem claim_lookup_typing (c : List Event) (v : PyVal) :
    ((∀ s, v ≠ .pstr s) → EventCollection.lookup c v = .error .typeError) ∧
    (∀ s, v = .pstr s → (∀ e ∈ c, e.key ≠ none) →
      (∃ r, EventCollection.lookup c v = .ok r) ∧
      ((∀ e ∈ c, ∀ k, e.key = some k → pyLower k ≠ pyLower s) →
        EventCollection.lookup c v = .ok none)) := by
  constructor
  · intro h
    cases v with
    | pnone => rfl
    | pbool b => rfl
    | pint n => rfl
    | pstr s => exact absurd rfl (h s)
  · intro s hv hkeys
    subst hv
    exact lookupFind_string_total c s hkeys

/-- C10 witness: `lookup` on `None` raises `TypeError`; `lookup` of an
absent string key returns `None` rather than raising. -/
theorem claim_lookup_typing_witness :
    EventCollection.lookup [pingEvent] .pnone = .error .typeError ∧
    EventCollection.lookup [pingEvent] (.pstr "absent") = .ok none := by
  constructor
  · exact (claim_lookup_typing [pingEvent] .pnone).1 (fun s h => by cases h)
  · refine ((claim_lookup_typing [pingEvent] (.pstr "absent")).2 "absent" rfl ?_).2 ?_
    · intro e he
      simp at he
      subst he
      decide
    · intro e he k hk
      simp at he
      subst he
      simp [pingEvent] at hk
      subst hk
      decide

end ISMF
